import Mathlib

/-!
# Pulsii — verification of the relay server and pulse client

Shallow embedding of the Pulsii repository (src/server.js, src/script.js) and
proofs about the claims of its specification.

Conventions of the embedding:

* JavaScript numbers are modelled by `JSNum`: finite values are exact rationals
  (IEEE-754 rounding and overflow are not modelled; every literal of the source
  denotes the rational it writes), and the non-finite values `NaN`, `Infinity`
  and `-Infinity` are explicit constructors.  `ℚ` has no signed zero, so `-0`
  behaves as `0`; none of the verified properties depend on it.
* JSON values are the inductive `Json`.  `JSON.parse` (a host builtin) is
  modelled by handing the handlers an `Option Json`: `none` is a parse failure
  (the `catch` branch), `some j` the parsed value.  `JSON.parse` never produces
  `NaN`/`Infinity`; feeding such values to the handlers models a direct call.
* Event handlers are pure functions from their inputs and the relevant state to
  the new state plus the effects they perform (sends, scheduled tasks).  The
  handlers of the source perform no other effects: the server message handler
  never closes a connection or writes an error back, and the client tap handler
  neither queues nor retries a send, so the effect records carry exactly the
  fields the code can produce.
-/

namespace Pulsii

/-- Model of a JavaScript number: an exact rational for finite doubles, plus
the non-finite values.  (`-0` is identified with `0`.) -/
inductive JSNum where
  | nan
  | posInf
  | negInf
  | fin (q : ℚ)
deriving DecidableEq

/-- Model of `Math.min(a, b)`: `NaN` propagates, otherwise the smaller value. -/
def jsMin : JSNum → JSNum → JSNum
  | .nan, _ => .nan
  | _, .nan => .nan
  | .negInf, _ => .negInf
  | _, .negInf => .negInf
  | .posInf, b => b
  | a, .posInf => a
  | .fin p, .fin q => .fin (min p q)

/-- Model of `Math.max(a, b)`: `NaN` propagates, otherwise the larger value. -/
def jsMax : JSNum → JSNum → JSNum
  | .nan, _ => .nan
  | _, .nan => .nan
  | .posInf, _ => .posInf
  | _, .posInf => .posInf
  | .negInf, b => b
  | a, .negInf => a
  | .fin p, .fin q => .fin (max p q)

/-- JavaScript `*` on numbers: `NaN` propagates, `0 * ±Infinity = NaN`,
finite products are exact. -/
def jsMul : JSNum → JSNum → JSNum
  | .nan, _ => .nan
  | _, .nan => .nan
  | .posInf, .posInf => .posInf
  | .posInf, .negInf => .negInf
  | .negInf, .posInf => .negInf
  | .negInf, .negInf => .posInf
  | .posInf, .fin q => if 0 < q then .posInf else if q < 0 then .negInf else .nan
  | .negInf, .fin q => if 0 < q then .negInf else if q < 0 then .posInf else .nan
  | .fin p, .posInf => if 0 < p then .posInf else if p < 0 then .negInf else .nan
  | .fin p, .negInf => if 0 < p then .negInf else if p < 0 then .posInf else .nan
  | .fin p, .fin q => .fin (p * q)

/-- JavaScript `/` on numbers.  Division by the rational `0` models division
by `+0` (there is no `-0` in `ℚ`): `0/0 = NaN`, `p/0 = ±Infinity`. -/
def jsDiv : JSNum → JSNum → JSNum
  | .nan, _ => .nan
  | _, .nan => .nan
  | .posInf, .posInf => .nan
  | .posInf, .negInf => .nan
  | .negInf, .posInf => .nan
  | .negInf, .negInf => .nan
  | .posInf, .fin q => if q < 0 then .negInf else .posInf
  | .negInf, .fin q => if q < 0 then .posInf else .negInf
  | .fin _, .posInf => .fin 0
  | .fin _, .negInf => .fin 0
  | .fin p, .fin q =>
      if q = 0 then (if p = 0 then .nan else if 0 < p then .posInf else .negInf)
      else .fin (p / q)

/-- A JSON value, as produced by `JSON.parse`.  Objects are field lists; a
parsed object binds each key once (on duplicate keys `JSON.parse` keeps the
last occurrence, which is what `lastAssoc` retrieves). -/
inductive Json where
  | null
  | bool (b : Bool)
  | num (n : JSNum)
  | str (s : String)
  | arr (elems : List Json)
  | obj (fields : List (String × Json))

/-- Last binding of a key in an association list (JSON duplicate-key rule). -/
def lastAssoc {α : Type} (fs : List (String × α)) (k : String) : Option α :=
  fs.foldl (fun acc kv => if kv.1 = k then some kv.2 else acc) none

/-- Property read used by the destructuring `const \x7b type, xNorm, yNorm, color \x7d
= parsed || \x7b\x7d`: a field of an object, `undefined` (here `none`) for every
non-object value (primitives and arrays carry none of these properties). -/
def getField (j : Json) (k : String) : Option Json :=
  match j with
  | .obj fs => lastAssoc fs k
  | _ => none

/-- The pulse schema check shared verbatim by server.js line 38 and
script.js line 337: `type === 'pulse' && typeof xNorm === 'number' &&
typeof yNorm === 'number' && typeof color === 'string'`.  Returns the
validated fields. -/
def checkPulse (j : Json) : Option (JSNum × JSNum × String) :=
  match getField j "type", getField j "xNorm", getField j "yNorm", getField j "color" with
  | some (.str "pulse"), some (.num x), some (.num y), some (.str c) => some (x, y, c)
  | _, _, _, _ => none

/-- The JSON value `JSON.stringify` serializes for a number: non-finite
numbers become `null`. -/
def jsonOfNum (n : JSNum) : Json :=
  match n with
  | .fin q => .num (.fin q)
  | _ => .null

/-- The object serialized by `JSON.stringify(\x7b type, xNorm, yNorm, color \x7d)`
on the validated fields (server.js line 40) and by the client send
(script.js line 127): exactly the four fields, in source order. -/
def serializePulse (x y : JSNum) (c : String) : Json :=
  .obj [("type", .str "pulse"), ("xNorm", jsonOfNum x), ("yNorm", jsonOfNum y),
        ("color", .str c)]

/-! ## Relay server (src/server.js) -/

/-- The `ws` connection ready states. -/
inductive ReadyState where
  | CONNECTING
  | OPEN
  | CLOSING
  | CLOSED
deriving DecidableEq

/-- One WebSocket connection held in `wss.clients`. -/
structure Client where
  id : Nat
  readyState : ReadyState
deriving DecidableEq

/-- Server state: the set of connections `wss.clients`, as a list. -/
structure ServerState where
  clients : List Client
deriving DecidableEq

/-- The connections `broadcast` actually writes to: members of `wss.clients`
whose `readyState` is `OPEN`. -/
def openClients (st : ServerState) : List Client :=
  st.clients.filter (fun c => c.readyState = ReadyState.OPEN)

/-- Fan-out helper `broadcast(data)` (server.js lines 23–29): send `data` to every client
of the open set. -/
def broadcast (st : ServerState) (payload : Json) : List (Nat × Json) :=
  (openClients st).map (fun c => (c.id, payload))

/-- Everything the server message handler can do.  The source handler only
ever sends; it has no code path that closes a connection or reports an error
to the sender, which the fixed empty fields record. -/
structure Effect where
  sends : List (Nat × Json)
  closedConnections : List Nat
  errorsSentToSender : List Json

/-- The effect of a handler run that only sends. -/
def sendOnly (sends : List (Nat × Json)) : Effect :=
  ⟨sends, [], []⟩

/-- Message handler `socket.on('message')` (server.js lines 34–44): parse (`none` = the
`catch` branch), check the pulse schema, and broadcast the re-serialized
validated fields; otherwise do nothing.  The connection set is untouched. -/
def handleMessage (st : ServerState) (parsed : Option Json) : ServerState × Effect :=
  match parsed with
  | none => (st, sendOnly [])
  | some j =>
    match checkPulse j with
    | none => (st, sendOnly [])
    | some (x, y, c) => (st, sendOnly (broadcast st (serializePulse x y c)))

/-- A new connection joins `wss.clients` (server.js line 31). -/
def onConnect (st : ServerState) (c : Client) : ServerState :=
  ⟨st.clients ++ [c]⟩

/-- A closed connection leaves `wss.clients` (handled by `ws` itself;
server.js line 46 adds nothing). -/
def onDisconnect (st : ServerState) (id : Nat) : ServerState :=
  ⟨st.clients.filter (fun c => ¬ c.id = id)⟩

/-- Binding host `const HOST = '0.0.0.0'` (server.js line 9): all interfaces. -/
def HOST : String := "0.0.0.0"

/-- Port choice `const HTTP_PORT = process.env.PORT || 3000` (server.js line 10): the
environment string when set and non-empty (a falsy `''` falls through),
else the numeric default `3000`. -/
def HTTP_PORT (envPort : Option String) : String ⊕ Nat :=
  match envPort with
  | none => .inr 3000
  | some s => if s = "" then .inr 3000 else .inl s

/-- Modelled from the spec: the `npm start` launcher described by the README
is not under src/ (only server.js is).  Per the README it "uses `PORT` if
set, default 8080; auto-falls back to 3001 if 8080 is busy". -/
def deployPort (envPort : Option Nat) (primaryBusy : Bool) : Nat :=
  let primary := envPort.getD 8080
  if primaryBusy then 3001 else primary

/-! ## Client (src/script.js) — colors -/

/-- JavaScript `String.prototype.replace` with a plain-string pattern
replaces only the first occurrence; `hex.replace('#', '')` drops the first
`#`, wherever it sits. -/
def removeFirstHashChars : List Char → List Char
  | [] => []
  | c :: rest => if c = '#' then rest else c :: removeFirstHashChars rest

/-- The strip step `hex.replace('#', '')` (script.js line 92). -/
def removeFirstHash (s : String) : String :=
  ⟨removeFirstHashChars s.toList⟩

/-- Value of a hexadecimal digit. -/
def hexDigitVal (c : Char) : Option Nat :=
  if '0' ≤ c ∧ c ≤ '9' then some (c.toNat - '0'.toNat)
  else if 'a' ≤ c ∧ c ≤ 'f' then some (c.toNat - 'a'.toNat + 10)
  else if 'A' ≤ c ∧ c ≤ 'F' then some (c.toNat - 'A'.toNat + 10)
  else none

/-- Accumulate a run of leading hex digits. -/
def takeHexDigits : List Char → Nat → Nat × List Char
  | [], acc => (acc, [])
  | c :: rest, acc =>
    match hexDigitVal c with
    | some v => takeHexDigits rest (16 * acc + v)
    | none => (acc, c :: rest)

/-- Whether a character counts as leading whitespace for `parseInt`
(the ASCII whitespace cases; exotic Unicode spaces are not modelled). -/
def isJsSpace (c : Char) : Bool :=
  c = ' ' ∨ c = '\t' ∨ c = '\n' ∨ c = '\x0d' ∨ c = '\x0b' ∨ c = '\x0c'

/-- Core of `parseInt(s, 16)` on the character list: skip whitespace, read an
optional sign, an optional `0x`/`0X` prefix, then the longest run of hex
digits; `none` (= `NaN`) when that run is empty.  The value is kept as an
exact integer: the rounding `parseInt` applies to results above `2^53` only
perturbs digit values and is not modelled. -/
def parseIntHexChars (cs : List Char) : Option Int :=
  let trimmed := cs.dropWhile isJsSpace
  let (sign, afterSign) : Int × List Char :=
    match trimmed with
    | '-' :: rest => (-1, rest)
    | '+' :: rest => (1, rest)
    | rest => (1, rest)
  let digits : List Char :=
    match afterSign with
    | '0' :: 'x' :: rest => rest
    | '0' :: 'X' :: rest => rest
    | rest => rest
  match digits with
  | [] => none
  | c :: _ =>
    match hexDigitVal c with
    | none => none
    | some _ => some (sign * Int.ofNat (takeHexDigits digits 0).1)

/-- Model of `parseInt(s, 16)` (script.js line 93); `none` is `NaN`. -/
def jsParseIntHex (s : String) : Option Int :=
  parseIntHexChars s.toList

/-- ECMAScript `ToInt32` on an integer-valued number: reduce mod `2^32` into
`[-2^31, 2^31)`.  (`ToInt32(NaN) = 0` is handled at the call site.) -/
def toInt32 (n : Int) : Int :=
  let m := n % (2 ^ 32 : Int)
  if m < 2 ^ 31 then m else m - 2 ^ 32

/-- JavaScript `>>` on an int32 value: arithmetic shift, i.e. floor division
by the power of two. -/
def shr32 (n : Int) (k : Nat) : Int :=
  Int.fdiv (toInt32 n) (2 ^ k)

/-- JavaScript `& 255` on an int32 value: the low byte of the two's
complement representation, i.e. the value mod `256`. -/
def and255 (n : Int) : Int :=
  toInt32 n % 256

/-- An RGB triple as built by `hexToRgb`. -/
structure Rgb where
  r : Int
  g : Int
  b : Int
deriving DecidableEq

/-- Color decoding `hexToRgb` (script.js lines 91–99): strip the first `#`, `parseInt` the
rest base 16 (`NaN`, i.e. `none`, coerces to `0` under `ToInt32`), and mask
out the three bytes. -/
def hexToRgb (hex : String) : Rgb :=
  let cleaned := removeFirstHash hex
  let int : Option Int := jsParseIntHex cleaned
  let n : Int := int.getD 0
  { r := and255 (shr32 n 16), g := and255 (shr32 n 8), b := and255 n }

/-! ## Client — pulses and input -/

/-- Animation constants (script.js lines 27–29). -/
def MAX_PULSE_ALPHA : ℚ := 0.22

/-- Growth rate `GROWTH_RATE` (script.js line 28), pixels per second. -/
def GROWTH_RATE : ℚ := 420

/-- Lifetime `PULSE_LIFETIME` (script.js line 29), seconds. -/
def PULSE_LIFETIME : ℚ := 1.4

/-- One active pulse (script.js lines 111–120).  The normalized coordinates
are whatever numbers were pushed (hence `JSNum`); radius and age start at 0
and are advanced by finite frame deltas, so they stay rational. -/
structure Pulse where
  normX : JSNum
  normY : JSNum
  rgb : Rgb
  radius : ℚ
  age : ℚ
deriving DecidableEq

/-- Creation `spawnPulse(normX, normY, colorHex)` (script.js lines 111–120): push a
fresh pulse onto the active collection. -/
def spawnPulse (ps : List Pulse) (normX normY : JSNum) (colorHex : String) : List Pulse :=
  ps ++ [{ normX := normX, normY := normY, rgb := hexToRgb colorHex, radius := 0, age := 0 }]

/-- Send path `sendPulse` (script.js lines 123–129): always spawn locally, and send
upstream exactly when a socket exists and is `OPEN`; otherwise the send is
skipped (nothing is queued and nothing retried — there is no other field for
the result to carry). -/
def sendPulse (sock : Option ReadyState) (ps : List Pulse) (normX normY : JSNum)
    (colorHex : String) : List Pulse × Option Json :=
  (spawnPulse ps normX normY colorHex,
   if sock = some ReadyState.OPEN then some (serializePulse normX normY colorHex) else none)

/-- Model of `Math.round` on a finite number: floor of `q + 1/2` (ties toward `+∞`). -/
def jsRound (q : ℚ) : Int :=
  ⌊q + 1 / 2⌋

/-- What `getPointerPosition` returns (script.js lines 153–164): the local
CSS-pixel offsets and the normalized coordinates
`(x * deviceRatio) / canvas.width` — note: no clamping. -/
structure PointerPos where
  x : ℚ
  y : ℚ
  normX : JSNum
  normY : JSNum

/-- Pointer math `getPointerPosition(event)` (script.js lines 153–164).  `canvasW`/`canvasH`
are the integer backing-store sizes `canvas.width`/`canvas.height`, which
`resizeCanvas` sets to `Math.round(css size * deviceRatio)`. -/
def getPointerPosition (clientX clientY rectLeft rectTop ratio : ℚ)
    (canvasW canvasH : Int) : PointerPos :=
  let x := clientX - rectLeft
  let y := clientY - rectTop
  { x := x, y := y,
    normX := jsDiv (.fin (x * ratio)) (.fin (canvasW : ℚ)),
    normY := jsDiv (.fin (y * ratio)) (.fin (canvasH : ℚ)) }

/-- Color-picker geometry (script.js lines 8–21): centre and radius. -/
structure ColorPickerState where
  x : ℚ
  y : ℚ
  radius : ℚ

/-- Hit test `isInsideColorPicker(localX, localY)` (script.js lines 147–151):
`Math.hypot(dx, dy) <= radius`, stated squared (for `0 ≤ radius`,
`hypot(dx,dy) ≤ r` is `dx² + dy² ≤ r²`; the source radius is `20`). -/
def isInsideColorPicker (cp : ColorPickerState) (localX localY : ℚ) : Bool :=
  (localX - cp.x) ^ 2 + (localY - cp.y) ^ 2 ≤ cp.radius ^ 2

/-- Outcome of a `pointerdown` on the canvas. -/
structure TapResult where
  pulses : List Pulse
  sent : Option Json
  startedPickerDrag : Bool

/-- Tap handler `handlePointerDown` (script.js lines 196–218): inside the picker, begin a
drag and spawn nothing; otherwise `sendPulse` at the normalized position with
the currently selected color. -/
def handlePointerDown (cp : ColorPickerState) (sock : Option ReadyState)
    (selectedColor : String) (pp : PointerPos) (ps : List Pulse) : TapResult :=
  if isInsideColorPicker cp pp.x pp.y then
    { pulses := ps, sent := none, startedPickerDrag := true }
  else
    let res := sendPulse sock ps pp.normX pp.normY selectedColor
    { pulses := res.1, sent := res.2, startedPickerDrag := false }

/-! ## Client — sync layer (WebSocket message / close handlers) -/

/-- The `message` listener of `connectWebSocket` (script.js lines 332–351):
parse (`none` = the `catch` branch), check the same pulse schema as the
server, clamp each coordinate with `Math.max(0, Math.min(1, ·))`, convert to
backing-store pixels and back to normalized form, and spawn.  Anything else
leaves the collection unchanged. -/
def onPeerMessage (canvasW canvasH : ℚ) (ps : List Pulse) (parsed : Option Json) :
    List Pulse :=
  match parsed with
  | none => ps
  | some j =>
    match checkPulse j with
    | none => ps
    | some (x, y, c) =>
      let clampedX := jsMax (.fin 0) (jsMin (.fin 1) x)
      let clampedY := jsMax (.fin 0) (jsMin (.fin 1) y)
      let pxX := jsMul clampedX (.fin canvasW)
      let pxY := jsMul clampedY (.fin canvasH)
      let normX := jsDiv pxX (.fin canvasW)
      let normY := jsDiv pxY (.fin canvasH)
      spawnPulse ps normX normY c

/-- The fixed reconnect delay of the `close` listener (script.js line 356). -/
def RECONNECT_DELAY_MS : Nat := 500

/-- Lifecycle events a client WebSocket can fire. -/
inductive WsEvent where
  | opened
  | closed
  | errored
deriving DecidableEq

/-- Deferred actions a lifecycle listener can schedule. -/
inductive ClientAction where
  | scheduleReconnect (delayMs : Nat)
deriving DecidableEq

/-- The lifecycle listeners of `connectWebSocket` (script.js lines 328–361):
`close` schedules one `setTimeout(connectWebSocket, 500)`; `open` and `error`
only log.  No listener consults any retry counter — none exists. -/
def onWsLifecycleEvent : WsEvent → List ClientAction
  | .closed => [ClientAction.scheduleReconnect RECONNECT_DELAY_MS]
  | _ => []

/-- All reconnect delays scheduled over a history of lifecycle events. -/
def scheduledReconnects (evs : List WsEvent) : List Nat :=
  (evs.map (fun e => (onWsLifecycleEvent e).map
    (fun a => match a with | ClientAction.scheduleReconnect d => d))).flatten

/-! ## Client — animation loop (script.js lines 366–409) -/

/-- Frame delta `const deltaSec = Math.min((now - lastTime) / 1000, 0.05)` (line 367):
frame delta in seconds, capped at `0.05`. -/
def clampDelta (rawMs : ℚ) : ℚ :=
  min (rawMs / 1000) 0.05

/-- Per-frame update of one pulse (lines 380–381): age and radius advance by
the (clamped) delta. -/
def updatePulse (d : ℚ) (p : Pulse) : Pulse :=
  { p with age := p.age + d, radius := p.radius + GROWTH_RATE * d }

/-- Normalized age `lifeT` (line 383): normalized age, capped at 1. -/
def lifeT (p : Pulse) : ℚ :=
  min 1 (p.age / PULSE_LIFETIME)

/-- The pulse-collection effect of one `animate` frame (lines 378–390):
every pulse ages and grows by the clamped delta, and those whose `lifeT`
reached 1 are spliced out (the backwards loop keeps the survivors' order). -/
def stepPulses (d : ℚ) (ps : List Pulse) : List Pulse :=
  (ps.map (updatePulse d)).filter (fun p => lifeT p < 1)

/-- The opacity envelope of a pulse at a given age (lines 383–385):
`MAX_PULSE_ALPHA * Math.sin(Math.PI * lifeT)`. -/
noncomputable def pulseAlpha (age : ℝ) : ℝ :=
  (MAX_PULSE_ALPHA : ℝ) * Real.sin (Real.pi * min 1 (age / (PULSE_LIFETIME : ℝ)))

/-- Where a pulse is rendered horizontally (line 392): `normX * cssWidth`. -/
def renderX (p : Pulse) (cssW : ℚ) : JSNum :=
  jsMul p.normX (.fin cssW)

/-- Where a pulse is rendered vertically (line 393): `normY * cssHeight`. -/
def renderY (p : Pulse) (cssH : ℚ) : JSNum :=
  jsMul p.normY (.fin cssH)

/-- A rendered coordinate lies within the visible surface `[0, limit]`. -/
def inSurface (v : JSNum) (limit : ℚ) : Prop :=
  ∃ q : ℚ, v = .fin q ∧ 0 ≤ q ∧ q ≤ limit

/-- An inbound payload the relay treats as malformed: unparsable text, or a
parsed value failing the pulse schema. -/
def malformed (parsed : Option Json) : Prop :=
  parsed = none ∨ ∃ j, parsed = some j ∧ checkPulse j = none

/-! ## Helper lemmas -/

/-- A successful schema check pins down the four fields of the message. -/
lemma checkPulse_inv {j : Json} {x y : JSNum} {c : String}
    (h : checkPulse j = some (x, y, c)) :
    getField j "type" = some (.str "pulse") ∧ getField j "xNorm" = some (.num x) ∧
    getField j "yNorm" = some (.num y) ∧ getField j "color" = some (.str c) := by
  unfold checkPulse at h
  split at h
  · rename_i ht hx hy hc
    injection h with h2
    obtain ⟨rfl, rfl, rfl⟩ : _ ∧ _ ∧ _ := by
      simpa [Prod.ext_iff] using h2
    exact ⟨ht, hx, hy, hc⟩
  · exact absurd h (by simp)

/-! ## Claims -/

/-- C1: for every inbound message satisfying the pulse schema, the relay
sends to every connection in the open set (the sender, being among them, not
excluded) the serialization of exactly the four validated fields with the
received values; a message failing the schema is not forwarded. -/
theorem C1_relay_forwards_iff_schema :
    ∀ (st : ServerState) (j : Json) (x y : JSNum) (c : String),
      (checkPulse j = some (x, y, c) →
        (handleMessage st (some j)).2.sends
            = (openClients st).map (fun cl => (cl.id, serializePulse x y c))
        ∧ (∀ cl, cl ∈ openClients st →
            (cl.id, serializePulse x y c) ∈ (handleMessage st (some j)).2.sends)
        ∧ getField j "xNorm" = some (.num x)
        ∧ getField j "yNorm" = some (.num y)
        ∧ getField j "color" = some (.str c)
        ∧ (∀ qx qy : ℚ, x = .fin qx → y = .fin qy →
            serializePulse x y c
              = Json.obj [("type", .str "pulse"), ("xNorm", .num (.fin qx)),
                          ("yNorm", .num (.fin qy)), ("color", .str c)]))
      ∧ (checkPulse j = none → (handleMessage st (some j)).2.sends = []) := by
  intro st j x y c
  constructor
  · intro h
    obtain ⟨ht, hx, hy, hc⟩ := checkPulse_inv h
    refine ⟨?_, ?_, hx, hy, hc, ?_⟩
    · simp [handleMessage, h, broadcast, sendOnly]
    · intro cl hcl
      simp only [handleMessage, h, broadcast, sendOnly]
      exact List.mem_map_of_mem _ hcl
    · rintro qx qy rfl rfl
      simp [serializePulse, jsonOfNum]
  · intro h
    simp [handleMessage, h, sendOnly]

/-- C1 witness: a concrete valid pulse reaches both open connections (ids 0
and 2), skipping the closed one, with the exact four fields. -/
theorem C1_relay_forwards_iff_schema_witness :
    (handleMessage
        ⟨[⟨0, ReadyState.OPEN⟩, ⟨1, ReadyState.CLOSED⟩, ⟨2, ReadyState.OPEN⟩]⟩
        (some (Json.obj [("type", .str "pulse"), ("xNorm", .num (.fin (1/2))),
                         ("yNorm", .num (.fin (1/2))), ("color", .str "#ff0000")]))).2.sends
      = [(0, Json.obj [("type", .str "pulse"), ("xNorm", .num (.fin (1/2))),
                       ("yNorm", .num (.fin (1/2))), ("color", .str "#ff0000")]),
         (2, Json.obj [("type", .str "pulse"), ("xNorm", .num (.fin (1/2))),
                       ("yNorm", .num (.fin (1/2))), ("color", .str "#ff0000")])] := by
  have h := C1_relay_forwards_iff_schema
    ⟨[⟨0, ReadyState.OPEN⟩, ⟨1, ReadyState.CLOSED⟩, ⟨2, ReadyState.OPEN⟩]⟩
    (Json.obj [("type", .str "pulse"), ("xNorm", .num (.fin (1/2))),
               ("yNorm", .num (.fin (1/2))), ("color", .str "#ff0000")])
    (.fin (1/2)) (.fin (1/2)) "#ff0000"
  rw [(h.1 rfl).1]
  rfl

/-- C2: a malformed payload (parse failure or schema mismatch) produces no
sends, no error back to the sender, no closed connection, and leaves the
connection set untouched, so a subsequent valid message still reaches every
open connection of the original state. -/
theorem C2_malformed_silently_dropped :
    ∀ (st : ServerState) (d : Option Json),
      malformed d →
        handleMessage st d = (st, sendOnly [])
        ∧ (handleMessage st d).2.sends = []
        ∧ (handleMessage st d).2.errorsSentToSender = []
        ∧ (handleMessage st d).2.closedConnections = []
        ∧ (∀ (j' : Json) (x y : JSNum) (c : String), checkPulse j' = some (x, y, c) →
            (handleMessage (handleMessage st d).1 (some j')).2.sends
              = (openClients st).map (fun cl => (cl.id, serializePulse x y c))) := by
  intro st d hbad
  have hdrop : handleMessage st d = (st, sendOnly []) := by
    rcases hbad with rfl | ⟨j, rfl, hj⟩
    · rfl
    · simp [handleMessage, hj]
  refine ⟨hdrop, by rw [hdrop]; rfl, by rw [hdrop]; rfl, by rw [hdrop]; rfl, ?_⟩
  intro j' x y c hj'
  rw [hdrop]
  simp [handleMessage, hj', broadcast, sendOnly]

/-- C2 witness: after the relay receives the non-pulse text `"hi"` nothing is
sent and the state survives, so a following valid pulse still reaches the
open connection. -/
theorem C2_malformed_silently_dropped_witness :
    (handleMessage ⟨[⟨0, ReadyState.OPEN⟩]⟩ (some (Json.str "hi"))).2.sends = []
    ∧ (handleMessage
          (handleMessage ⟨[⟨0, ReadyState.OPEN⟩]⟩ (some (Json.str "hi"))).1
          (some (Json.obj [("type", .str "pulse"), ("xNorm", .num (.fin 0)),
                           ("yNorm", .num (.fin 1)), ("color", .str "#00ff00")]))).2.sends
        = [(0, serializePulse (.fin 0) (.fin 1) "#00ff00")] := by
  have h := C2_malformed_silently_dropped ⟨[⟨0, ReadyState.OPEN⟩]⟩
    (some (Json.str "hi")) (Or.inr ⟨Json.str "hi", rfl, rfl⟩)
  refine ⟨h.2.1, ?_⟩
  rw [h.2.2.2.2 (Json.obj [("type", .str "pulse"), ("xNorm", .num (.fin 0)),
        ("yNorm", .num (.fin 1)), ("color", .str "#00ff00")])
      (.fin 0) (.fin 1) "#00ff00" rfl]
  rfl

/-- Clamping `Math.max(0, Math.min(1, x))` lands in `[0, 1]` for every number except
`NaN` (which both `Math.min` and `Math.max` propagate). -/
lemma clamp01_spec (x : JSNum) (hx : x ≠ JSNum.nan) :
    ∃ q : ℚ, jsMax (.fin 0) (jsMin (.fin 1) x) = .fin q ∧ 0 ≤ q ∧ q ≤ 1 := by
  cases x with
  | nan => exact absurd rfl hx
  | posInf =>
    exact ⟨1, by norm_num [jsMin, jsMax], by norm_num, le_refl 1⟩
  | negInf =>
    exact ⟨0, by norm_num [jsMin, jsMax], le_refl 0, by norm_num⟩
  | fin q =>
    refine ⟨max 0 (min 1 q), by norm_num [jsMin, jsMax], le_max_left 0 _, ?_⟩
    exact max_le (by norm_num) (min_le_left 1 q)

/-- What the peer-message listener pushes for an accepted message whose
coordinates are not `NaN`: one pulse whose normalized coordinates are the
clamped values, hence in `[0, 1]` (the round trip through backing-store
pixels divides out for a non-zero canvas size). -/
lemma onPeerMessage_spawns_clamped (w h : ℚ) (ps : List Pulse) (j : Json)
    (x y : JSNum) (c : String) (hj : checkPulse j = some (x, y, c))
    (hx : x ≠ JSNum.nan) (hy : y ≠ JSNum.nan) (hw : w ≠ 0) (hh : h ≠ 0) :
    ∃ qx qy : ℚ, 0 ≤ qx ∧ qx ≤ 1 ∧ 0 ≤ qy ∧ qy ≤ 1 ∧
      onPeerMessage w h ps (some j)
        = ps ++ [{ normX := .fin qx, normY := .fin qy, rgb := hexToRgb c,
                   radius := 0, age := 0 }] := by
  obtain ⟨qx, hcx, h0x, h1x⟩ := clamp01_spec x hx
  obtain ⟨qy, hcy, h0y, h1y⟩ := clamp01_spec y hy
  refine ⟨qx, qy, h0x, h1x, h0y, h1y, ?_⟩
  have hxw : qx * w / w = qx := by field_simp
  have hyh : qy * h / h = qy := by field_simp
  simp [onPeerMessage, hj, hcx, hcy, jsMul, jsDiv, hw, hh, hxw, hyh, spawnPulse]

/-- C3 counterexample: a tap strictly inside the canvas (pointer at CSS
x = 100.3 of a 100.4-wide canvas, device ratio 1, so `canvas.width`
rounds down to 100) and outside the color picker puts a pulse with
`normX = 1.003 > 1` into the collection — the local path never clamps. -/
theorem C3_counterexample_local_tap_unclamped :
    (0 : ℚ) ≤ 1003 / 10 ∧ (1003 / 10 : ℚ) ≤ 502 / 5
    ∧ jsRound ((502 / 5 : ℚ) * 1) = 100
    ∧ isInsideColorPicker ⟨44, 564 / 10, 20⟩ (1003 / 10) 50 = false
    ∧ ((handlePointerDown ⟨44, 564 / 10, 20⟩ (some ReadyState.OPEN) "#ff0000"
          (getPointerPosition (1003 / 10) 50 0 0 1 (jsRound ((502 / 5 : ℚ) * 1))
            (jsRound ((502 / 5 : ℚ) * 1))) []).pulses.map (fun p => p.normX))
        = [JSNum.fin (1003 / 1000)]
    ∧ ¬ ((1003 : ℚ) / 1000 ≤ 1) := by
  refine ⟨by norm_num, by norm_num, by norm_num [jsRound], ?_, ?_, by norm_num⟩
  · norm_num [isInsideColorPicker]
  · norm_num [handlePointerDown, getPointerPosition, isInsideColorPicker, sendPulse,
      spawnPulse, jsDiv, jsRound]

/-- C3 (amended): peer-originated pulses are clamped to `[0, 1]` before use
(for non-`NaN` coordinates and a non-degenerate canvas); locally-originated
pulses are not clamped (see the counterexample). -/
theorem C3_amended_peer_pulses_clamped :
    ∀ (w h : ℚ) (ps : List Pulse) (j : Json) (x y : JSNum) (c : String),
      checkPulse j = some (x, y, c) → x ≠ JSNum.nan → y ≠ JSNum.nan →
      w ≠ 0 → h ≠ 0 →
      ∃ qx qy : ℚ,
        onPeerMessage w h ps (some j)
          = ps ++ [{ normX := .fin qx, normY := .fin qy, rgb := hexToRgb c,
                     radius := 0, age := 0 }]
        ∧ 0 ≤ qx ∧ qx ≤ 1 ∧ 0 ≤ qy ∧ qy ≤ 1 := by
  intro w h ps j x y c hj hx hy hw hh
  obtain ⟨qx, qy, h0x, h1x, h0y, h1y, heq⟩ :=
    onPeerMessage_spawns_clamped w h ps j x y c hj hx hy hw hh
  exact ⟨qx, qy, heq, h0x, h1x, h0y, h1y⟩

/-- C3 (amended) witness: the out-of-range peer coordinates `(3, -2)` are
clamped to `(1, 0)` on a 100×100 canvas. -/
theorem C3_amended_peer_pulses_clamped_witness :
    ∃ qx qy : ℚ,
      onPeerMessage 100 100 []
          (some (Json.obj [("type", .str "pulse"), ("xNorm", .num (.fin 3)),
                           ("yNorm", .num (.fin (-2))), ("color", .str "#0000ff")]))
        = [] ++ [{ normX := .fin qx, normY := .fin qy, rgb := hexToRgb "#0000ff",
                   radius := 0, age := 0 }]
      ∧ 0 ≤ qx ∧ qx ≤ 1 ∧ 0 ≤ qy ∧ qy ≤ 1 :=
  C3_amended_peer_pulses_clamped 100 100 []
    (Json.obj [("type", .str "pulse"), ("xNorm", .num (.fin 3)),
               ("yNorm", .num (.fin (-2))), ("color", .str "#0000ff")])
    (.fin 3) (.fin (-2)) "#0000ff" rfl (by decide) (by decide)
    (by norm_num) (by norm_num)

/-- C4 counterexample: the message with `xNorm = NaN` passes the schema check
(`typeof NaN === 'number'`), but `Math.max(0, Math.min(1, NaN))` is `NaN`, so
the spawned pulse renders at `NaN` — not within the surface bounds. -/
theorem C4_counterexample_nan_escapes_clamp :
    checkPulse (Json.obj [("type", .str "pulse"), ("xNorm", .num .nan),
                          ("yNorm", .num (.fin (1/2))), ("color", .str "#ffffff")])
        = some (JSNum.nan, JSNum.fin (1/2), "#ffffff")
    ∧ ((onPeerMessage 100 100 []
          (some (Json.obj [("type", .str "pulse"), ("xNorm", .num .nan),
                           ("yNorm", .num (.fin (1/2))), ("color", .str "#ffffff")]))).map
            (fun p => renderX p 100))
        = [JSNum.nan]
    ∧ ¬ inSurface JSNum.nan 100 := by
  refine ⟨rfl, rfl, ?_⟩
  rintro ⟨q, hq, -, -⟩
  exact JSNum.noConfusion hq

/-- C4 (amended): for every accepted peer pulse message whose coordinates
are not `NaN` — any finite out-of-range value, and `±Infinity` — the clamp
puts the rendered pixel position within the visible surface bounds; a `NaN`
coordinate instead propagates (see the counterexample), though `JSON.parse`
can never produce one. -/
theorem C4_amended_rendered_position_clamped :
    ∀ (w h cssW cssH : ℚ) (ps : List Pulse) (j : Json) (x y : JSNum) (c : String),
      checkPulse j = some (x, y, c) → x ≠ JSNum.nan → y ≠ JSNum.nan →
      w ≠ 0 → h ≠ 0 → 0 ≤ cssW → 0 ≤ cssH →
      ∃ p : Pulse, onPeerMessage w h ps (some j) = ps ++ [p]
        ∧ inSurface (renderX p cssW) cssW ∧ inSurface (renderY p cssH) cssH := by
  intro w h cssW cssH ps j x y c hj hx hy hw hh hcw hch
  obtain ⟨qx, qy, h0x, h1x, h0y, h1y, heq⟩ :=
    onPeerMessage_spawns_clamped w h ps j x y c hj hx hy hw hh
  refine ⟨_, heq, ⟨qx * cssW, rfl, mul_nonneg h0x hcw, ?_⟩,
          ⟨qy * cssH, rfl, mul_nonneg h0y hch, ?_⟩⟩
  · exact mul_le_of_le_one_left hcw h1x
  · exact mul_le_of_le_one_left hch h1y

/-- C4 (amended) witness: the peer coordinates `(5, -Infinity)` are rendered
at `(100, 0)` on a 100×100 surface — inside it. -/
theorem C4_amended_rendered_position_clamped_witness :
    ∃ p : Pulse,
      onPeerMessage 100 100 []
          (some (Json.obj [("type", .str "pulse"), ("xNorm", .num (.fin 5)),
                           ("yNorm", .num .negInf), ("color", .str "#abcdef")]))
        = [] ++ [p]
      ∧ inSurface (renderX p 100) 100 ∧ inSurface (renderY p 100) 100 :=
  C4_amended_rendered_position_clamped 100 100 100 100 []
    (Json.obj [("type", .str "pulse"), ("xNorm", .num (.fin 5)),
               ("yNorm", .num .negInf), ("color", .str "#abcdef")])
    (.fin 5) .negInf "#abcdef" rfl (by decide) (by decide)
    (by norm_num) (by norm_num) (by norm_num) (by norm_num)

/-- Normalized age stays below 1 exactly while the age is below the
lifetime. -/
lemma lifeT_lt_one_iff (p : Pulse) : lifeT p < 1 ↔ p.age < PULSE_LIFETIME := by
  have hL : (0 : ℚ) < PULSE_LIFETIME := by norm_num [PULSE_LIFETIME]
  simp [lifeT, min_lt_iff, div_lt_one hL]

/-- The opacity envelope is continuous in age. -/
lemma pulseAlpha_continuous : Continuous pulseAlpha := by
  unfold pulseAlpha
  exact continuous_const.mul (Real.continuous_sin.comp
    (continuous_const.mul (continuous_const.min (continuous_id.div_const _))))

/-- C5: the opacity envelope is 0 at age 0, exactly `MAX_PULSE_ALPHA` at half
`PULSE_LIFETIME`, and tends to 0 as age approaches the lifetime; and one
animation step removes exactly the pulses whose updated age reached the
lifetime — every younger pulse survives. -/
theorem C5_opacity_envelope_and_removal :
    pulseAlpha 0 = 0
    ∧ pulseAlpha ((PULSE_LIFETIME : ℝ) / 2) = (MAX_PULSE_ALPHA : ℝ)
    ∧ Filter.Tendsto pulseAlpha
        (nhdsWithin (PULSE_LIFETIME : ℝ) (Set.Iio (PULSE_LIFETIME : ℝ))) (nhds 0)
    ∧ ∀ (d : ℚ) (ps : List Pulse),
        stepPulses d ps
          = (ps.filter (fun p => p.age + d < PULSE_LIFETIME)).map (updatePulse d) := by
  have hL : (PULSE_LIFETIME : ℝ) ≠ 0 := by norm_num [PULSE_LIFETIME]
  refine ⟨?_, ?_, ?_, ?_⟩
  · unfold pulseAlpha
    norm_num
  · unfold pulseAlpha
    have h1 : (PULSE_LIFETIME : ℝ) / 2 / (PULSE_LIFETIME : ℝ) = 1 / 2 := by
      field_simp
      ring
    rw [h1]
    have h2 : min (1 : ℝ) (1 / 2) = 1 / 2 := by norm_num
    rw [h2]
    have h3 : Real.pi * (1 / 2) = Real.pi / 2 := by ring
    rw [h3, Real.sin_pi_div_two, mul_one]
  · have hval : pulseAlpha (PULSE_LIFETIME : ℝ) = 0 := by
      unfold pulseAlpha
      rw [div_self hL]
      norm_num [Real.sin_pi]
    have ht := pulseAlpha_continuous.tendsto (PULSE_LIFETIME : ℝ)
    rw [hval] at ht
    exact ht.mono_left nhdsWithin_le_nhds
  · intro d ps
    induction ps with
    | nil => rfl
    | cons p rest ih =>
      have hage : (updatePulse d p).age = p.age + d := rfl
      by_cases hp : p.age + d < PULSE_LIFETIME
      · have hkeep : lifeT (updatePulse d p) < 1 := by
          rw [lifeT_lt_one_iff, hage]; exact hp
        simp only [stepPulses, List.map_cons, List.filter_cons] at ih ⊢
        simp [hp, hkeep, ih]
      · have hdrop : ¬ lifeT (updatePulse d p) < 1 := by
          rw [lifeT_lt_one_iff, hage]; exact hp
        simp only [stepPulses, List.map_cons, List.filter_cons] at ih ⊢
        simp [hp, hdrop, ih]

/-- C6: the frame delta is capped at the fixed maximum 0.05 s, each step adds
exactly `GROWTH_RATE` times the clamped delta to every pulse's radius, and
over any sequence of frames the radius grows by `GROWTH_RATE` times the
accumulated clamped time. -/
theorem C6_clamped_delta_linear_radius_growth :
    (∀ rawMs : ℚ, clampDelta rawMs ≤ 0.05)
    ∧ (∀ (rawMs : ℚ) (p : Pulse),
        (updatePulse (clampDelta rawMs) p).radius
          = p.radius + GROWTH_RATE * clampDelta rawMs)
    ∧ (∀ (raws : List ℚ) (p : Pulse),
        (raws.foldl (fun q raw => updatePulse (clampDelta raw) q) p).radius
          = p.radius + GROWTH_RATE * (raws.map clampDelta).sum) := by
  refine ⟨fun rawMs => min_le_right _ _, fun rawMs p => rfl, ?_⟩
  intro raws
  induction raws with
  | nil => intro p; simp
  | cons r rest ih =>
    intro p
    rw [List.foldl_cons, ih, List.map_cons, List.sum_cons]
    simp only [updatePulse]
    ring

/-- C7: the server reads one environment port and falls back to the default
when none (or an empty string) is supplied, binding all interfaces; in the
README deployment mode (`npm start`, launcher not under src/ — modelled from
the spec) the primary port falls back to a secondary one when busy. -/
theorem C7_port_configuration :
    HTTP_PORT none = Sum.inr 3000
    ∧ (∀ s : String, ¬ s = "" → HTTP_PORT (some s) = Sum.inl s)
    ∧ HOST = "0.0.0.0"
    ∧ deployPort none false = 8080
    ∧ deployPort none true = 3001
    ∧ (∀ p : Nat, deployPort (some p) false = p)
    ∧ (∀ p : Nat, deployPort (some p) true = 3001) := by
  refine ⟨rfl, ?_, rfl, rfl, rfl, fun p => rfl, fun p => rfl⟩
  intro s hs
  simp [HTTP_PORT, hs]

/-- C7 witness: with `PORT=8080` the server listens on 8080. -/
theorem C7_port_configuration_witness :
    HTTP_PORT (some "8080") = Sum.inl "8080" :=
  C7_port_configuration.2.1 "8080" (by decide)

/-- C8: a tap outside the color picker always spawns a local pulse with the
selected color, and sends upstream exactly when the socket exists and is
open — otherwise the send is skipped with nothing queued, while the local
spawn still happens. -/
theorem C8_tap_spawns_locally_send_best_effort :
    ∀ (cp : ColorPickerState) (sock : Option ReadyState) (selectedColor : String)
      (pp : PointerPos) (ps : List Pulse),
      isInsideColorPicker cp pp.x pp.y = false →
        (handlePointerDown cp sock selectedColor pp ps).pulses
            = ps ++ [{ normX := pp.normX, normY := pp.normY,
                       rgb := hexToRgb selectedColor, radius := 0, age := 0 }]
        ∧ (handlePointerDown cp sock selectedColor pp ps).sent
            = (if sock = some ReadyState.OPEN
               then some (serializePulse pp.normX pp.normY selectedColor) else none) := by
  intro cp sock selectedColor pp ps h
  constructor
  · simp [handlePointerDown, h, sendPulse, spawnPulse]
  · simp [handlePointerDown, h, sendPulse]

/-- C8 witness: with no socket at all, a tap far from the picker still spawns
the pulse locally and sends nothing. -/
theorem C8_tap_spawns_locally_send_best_effort_witness :
    (handlePointerDown ⟨44, 56, 20⟩ none "#123456"
        ⟨200, 30, .fin (1 / 4), .fin (1 / 8)⟩ []).pulses
      = [] ++ [{ normX := .fin (1 / 4), normY := .fin (1 / 8),
                 rgb := hexToRgb "#123456", radius := 0, age := 0 }]
    ∧ (handlePointerDown ⟨44, 56, 20⟩ none "#123456"
        ⟨200, 30, .fin (1 / 4), .fin (1 / 8)⟩ []).sent = none := by
  have h := C8_tap_spawns_locally_send_best_effort ⟨44, 56, 20⟩ none "#123456"
    ⟨200, 30, .fin (1 / 4), .fin (1 / 8)⟩ [] (by norm_num [isInsideColorPicker])
  exact ⟨h.1, h.2⟩

/-- C9: over any history of lifecycle events, every close — regardless of how
many came before — schedules exactly one reconnect attempt at the same fixed
delay: the schedule is one `RECONNECT_DELAY_MS` entry per close, with no
growth and no cap. -/
theorem C9_reconnect_fixed_delay_every_close :
    ∀ evs : List WsEvent,
      scheduledReconnects evs
        = List.replicate ((evs.filter (fun e => e = WsEvent.closed)).length)
            RECONNECT_DELAY_MS := by
  intro evs
  induction evs with
  | nil => rfl
  | cons e rest ih =>
    cases e with
    | opened =>
      simpa [scheduledReconnects, onWsLifecycleEvent, List.filter_cons]
        using ih
    | closed =>
      simp only [scheduledReconnects, onWsLifecycleEvent, List.map_cons,
        List.flatten_cons, List.filter_cons] at ih ⊢
      simp [ih, List.replicate_succ]
    | errored =>
      simpa [scheduledReconnects, onWsLifecycleEvent, List.filter_cons]
        using ih

/-- Every masked byte lies in `[0, 255]`. -/
lemma and255_range (n : Int) : 0 ≤ and255 n ∧ and255 n ≤ 255 := by
  unfold and255
  constructor
  · exact Int.emod_nonneg _ (by norm_num)
  · have := Int.emod_lt_of_pos (toInt32 n) (show (0 : Int) < 256 by norm_num)
    omega

/-- C10: `hexToRgb` is total over arbitrary strings — every channel is an
integer in `[0, 255]`, and a string whose digits fail to parse (`parseInt`
returns `NaN`) yields `(0, 0, 0)` — so spawning a pulse from a peer message
with an arbitrary color string cannot fail. -/
theorem C10_hexToRgb_total_in_range :
    ∀ s : String,
      (0 ≤ (hexToRgb s).r ∧ (hexToRgb s).r ≤ 255)
      ∧ (0 ≤ (hexToRgb s).g ∧ (hexToRgb s).g ≤ 255)
      ∧ (0 ≤ (hexToRgb s).b ∧ (hexToRgb s).b ≤ 255)
      ∧ (jsParseIntHex (removeFirstHash s) = none → hexToRgb s = ⟨0, 0, 0⟩) := by
  intro s
  refine ⟨⟨(and255_range _).1, (and255_range _).2⟩,
          ⟨(and255_range _).1, (and255_range _).2⟩,
          ⟨(and255_range _).1, (and255_range _).2⟩, ?_⟩
  intro h
  simp only [hexToRgb, h]
  rfl

/-- C10 witness: the unparsable color string `"zz"` maps to black without
failing. -/
theorem C10_hexToRgb_total_in_range_witness :
    hexToRgb "zz" = ⟨0, 0, 0⟩ :=
  (C10_hexToRgb_total_in_range "zz").2.2.2 rfl

end Pulsii
